import Mathlib

/-!
Shallow embedding of the SARIT_PDS detection system
(`src/combined_detection_depth_uvc.py`) and its watchdog
(`src/watchdog_service.py`), with theorems checking the specification's
claims against the code.
-/

namespace SARIT

/-! ## Bounded FIFO queue (Python `queue.Queue(maxsize=n)`)

`items` lists queued elements oldest-first.  `put_nowait` returns `none` when
the queue is full (Python raises `queue.Full`); `get_nowait` returns `none`
when empty (Python raises `queue.Empty`); otherwise `get_nowait` removes and
returns the OLDEST element (FIFO order). -/

structure BQueue (α : Type) where
  items : List α
  cap : Nat
deriving DecidableEq

def BQueue.full (q : BQueue α) : Bool := decide (q.cap ≤ q.items.length)

def BQueue.put_nowait (q : BQueue α) (x : α) : Option (BQueue α) :=
  if q.items.length < q.cap then some ⟨q.items ++ [x], q.cap⟩ else none

def BQueue.get_nowait (q : BQueue α) : Option (α × BQueue α) :=
  match q.items with
  | [] => none
  | x :: rest => some (x, ⟨rest, q.cap⟩)

/-- Blocking `put` as used by the worker: the worker only calls
`self.result_queue.put(detections)` after checking `not full()`, so on that
path it never blocks; on a non-full queue it appends. -/
def BQueue.put (q : BQueue α) (x : α) : BQueue α :=
  ⟨q.items ++ [x], q.cap⟩

/-! ## Detection data model -/

/-- A frame is an opaque image buffer; only its identity matters here. -/
abbrev Frame := Nat

/-- One classified object as returned by the jetson-inference classifier:
`ClassID`, `Confidence`, and the box coordinates `Left/Top/Right/Bottom`.
Confidence is carried abstractly as a `Nat` (its value is never inspected by
the code paths under verification). -/
structure RawDetection where
  classID : Nat
  confidence : Nat
  left : Int
  top : Int
  right : Int
  bottom : Int
deriving DecidableEq

/-- One filtered detection record built by `jetson_object_detection`:
`{'bbox': [left, top, right, bottom], 'class': name, 'confidence': c}`. -/
structure Detection where
  bbox : Int × Int × Int × Int
  cls : String
  confidence : Nat
deriving DecidableEq

/-- `VEHICLE_CLASSES`: the fixed allow-list of class labels. -/
def VEHICLE_CLASSES : List String :=
  ["person", "bicycle", "car", "motorcycle", "bus", "truck"]

/-- The external classifier (`net`): `Detect` may raise (modelled as
`Except`), and `GetClassDesc` resolves a class id to a label. -/
structure Net where
  detect : Frame → Except String (List RawDetection)
  getClassDesc : Nat → String

/-- `jetson_object_detection(frame)`: calls the classifier inside a
`try/except`; any exception yields `[]`.  On success, keeps only detections
whose lowercased class name is in `VEHICLE_CLASSES`, building the bbox/class/
confidence record for each. -/
def jetson_object_detection (net : Net) (frame : Frame) : List Detection :=
  match net.detect frame with
  | .error _ => []
  | .ok raws =>
    raws.filterMap fun d =>
      let name := net.getClassDesc d.classID
      if name.toLower ∈ VEHICLE_CLASSES then
        some { bbox := (d.left, d.top, d.right, d.bottom)
               cls := name
               confidence := d.confidence }
      else
        none

/-! ## FrameProcessor

`__init__` creates `rgb_queue = Queue(maxsize=2)` and
`result_queue = Queue(maxsize=2)`. -/

def rgbQueue0 : BQueue Frame := ⟨[], 2⟩

def resultQueue0 : BQueue (List Detection) := ⟨[], 2⟩

/-- `add_rgb_frame(frame)`: `put_nowait` wrapped in `try/except: pass` — a
full queue silently drops the incoming frame and never raises to the
caller. -/
def add_rgb_frame (q : BQueue Frame) (f : Frame) : BQueue Frame :=
  match q.put_nowait f with
  | some q' => q'
  | none => q

/-- `get_latest_detection()`: `result_queue.get_nowait()` wrapped in
`try/except Empty: return None`. -/
def get_latest_detection (q : BQueue (List Detection)) :
    Option (List Detection) × BQueue (List Detection) :=
  match q.get_nowait with
  | some (r, q') => (some r, q')
  | none => (none, q)

/-- The publishing step of `_detection_worker`:
`if not self.result_queue.full(): self.result_queue.put(detections)` —
when the result queue is full the freshly completed result is discarded. -/
def workerPublish (q : BQueue (List Detection)) (r : List Detection) :
    BQueue (List Detection) :=
  if q.full then q else q.put r

/-- One worker-loop iteration body: `rgb_queue.get(timeout=0.1)` either times
out (`Empty` → `continue`, input `none`) or yields a frame; the frame is run
through `jetson_object_detection` and the result conditionally published.
The second component records the detection set computed for each processed
frame, in order. -/
def detectionWorkerSteps (net : Net) (rq : BQueue (List Detection)) :
    List (Option Frame) → BQueue (List Detection) × List (List Detection)
  | [] => (rq, [])
  | none :: rest => detectionWorkerSteps net rq rest
  | some f :: rest =>
    let dets := jetson_object_detection net f
    let next := detectionWorkerSteps net (workerPublish rq dets) rest
    (next.1, dets :: next.2)

/-! ## Sound alerts (`play_alert_sound`)

`current_playing_sound` is a global, `None` or `"chiller"`.  The primitive
pygame calls the actuator receives are `pygame.mixer.stop()` and
`CHILLER_SOUND.play(loops=-1)`. -/

inductive SoundCall
  | mixerStop
  | chillerPlay
deriving DecidableEq

structure SoundState where
  current_playing_sound : Option String
deriving DecidableEq

/-- `play_alert_sound(has_detections)`: returns immediately if sound is
disabled; on detections, if `current_playing_sound != "chiller"` it calls
`pygame.mixer.stop()` then `CHILLER_SOUND.play(loops=-1)` and records
`"chiller"`; on no detections, if something is recorded as playing it calls
`pygame.mixer.stop()` and records `None`.  Returns the updated state and the
pygame calls issued, in order. -/
def play_alert_sound (sound_enabled : Bool) (s : SoundState)
    (has_detections : Bool) : SoundState × List SoundCall :=
  if sound_enabled = false then (s, [])
  else if has_detections then
    if s.current_playing_sound ≠ some "chiller" then
      (⟨some "chiller"⟩, [.mixerStop, .chillerPlay])
    else
      (s, [])
  else
    if s.current_playing_sound ≠ none then
      (⟨none⟩, [.mixerStop])
    else
      (s, [])

/-- Feed a sequence of per-cycle `has_detections` values through
`play_alert_sound`, collecting all pygame calls in order. -/
def alertTrace (sound_enabled : Bool) :
    SoundState → List Bool → SoundState × List SoundCall
  | s, [] => (s, [])
  | s, b :: bs =>
    let step := play_alert_sound sound_enabled s b
    let rest := alertTrace sound_enabled step.1 bs
    (rest.1, step.2 ++ rest.2)

/-! ## Watchdog (`DetectionSystemWatchdog`)

State relevant to the supervision loop: the `running` flag (cleared by the
signal handler), whether `self.process` currently holds a child handle,
`restart_count`, and the configured `max_restarts` (`None` = unlimited). -/

structure SupState where
  running : Bool
  processUp : Bool
  restart_count : Nat
  max_restarts : Option Nat
deriving DecidableEq

/-- `should_restart()`: `False` when shutting down; `True` when
`restart_count == 0` (initial start always allowed); `False` when
`max_restarts` is set and `restart_count >= max_restarts`; else `True`. -/
def should_restart (s : SupState) : Bool :=
  if s.running = false then false
  else if s.restart_count = 0 then true
  else if (match s.max_restarts with
           | some m => decide (m ≤ s.restart_count)
           | none => false) then false
  else true

/-- One iteration of the body of `run()`'s `while self.running` loop.
Inputs from the environment: `spawnOk` — whether `subprocess.Popen`
succeeds in `start_process` this iteration; `childExited` — whether
`self.process.poll()` reports the child gone when `monitor_process` runs.
Returns `(state, didBreak, didStart)`: if no child handle is held, a failed
`should_restart` breaks the loop; otherwise `start_process` is attempted —
on success `restart_count` is incremented and, still in the same iteration,
`monitor_process` polls the fresh child; on failure the iteration ends
(`continue`) with the state unchanged.  With a child handle held,
`monitor_process` clears the handle when the child has exited. -/
def runBody (s : SupState) (spawnOk childExited : Bool) :
    SupState × Bool × Bool :=
  if s.processUp = false then
    if should_restart s = false then (s, true, false)
    else if spawnOk then
      let s1 : SupState :=
        { s with processUp := true, restart_count := s.restart_count + 1 }
      if childExited then ({ s1 with processUp := false }, false, true)
      else (s1, false, true)
    else
      (s, false, false)
  else
    if childExited then ({ s with processUp := false }, false, false)
    else (s, false, false)

/-- Drive `run()`'s loop over a finite list of environment inputs
(one `(spawnOk, childExited)` pair per iteration).  Returns the final state,
how many times `start_process` succeeded, and whether the loop terminated
(by `break` or by `self.running` turning false) within those iterations. -/
def runLoop (s : SupState) :
    List (Bool × Bool) → SupState × Nat × Bool
  | [] => (s, 0, false)
  | (ok, ex) :: rest =>
    if s.running = false then (s, 0, true)
    else
      let step := runBody s ok ex
      if step.2.1 then (step.1, (if step.2.2 then 1 else 0), true)
      else
        let tail := runLoop step.1 rest
        (tail.1, (if step.2.2 then 1 else 0) + tail.2.1, tail.2.2)

/-! ## `stop_process` -/

/-- A child handle; `stopsGracefully` records whether this child terminates
within the 10-second grace window after `terminate()`. -/
structure ProcHandle where
  stopsGracefully : Bool
deriving DecidableEq

/-- The subprocess calls `stop_process` can issue, in order:
`terminate()` (SIGTERM), `wait(timeout=10)` returning within the grace
period, `wait(timeout=10)` raising `TimeoutExpired`, `kill()`, and the final
untimed `wait()`. -/
inductive StopCall
  | terminate
  | waitGraceReturned
  | waitGraceTimeout
  | kill
  | waitFinal
deriving DecidableEq

/-- `stop_process()`: a no-op when `self.process` is `None`.  Otherwise
`terminate()`, then `wait(timeout=10)`; on `TimeoutExpired`, `kill()` then
`wait()`.  The `finally` block sets `self.process = None`.  Returns the
remaining child handle and the subprocess calls issued. -/
def stop_process (p : Option ProcHandle) :
    Option ProcHandle × List StopCall :=
  match p with
  | none => (none, [])
  | some c =>
    if c.stopsGracefully then
      (none, [.terminate, .waitGraceReturned])
    else
      (none, [.terminate, .waitGraceTimeout, .kill, .waitFinal])

/-- A finished `wait` on the child (either the grace-period `wait` returning
or the final `wait` after `kill`) is what confirms the child dead. -/
def confirmsChildDead (calls : List StopCall) : Bool :=
  calls.contains .waitGraceReturned || calls.contains .waitFinal

/-! ## Telemetry (`send_to_emulator`) -/

/-- `json.dumps(\x7b"danger_level": n\x7d)` for this single-key integer
object: Python renders one space after the colon and no surrounding
whitespace. -/
def jsonDumpsDangerLevel (n : Int) : String :=
  "\x7b\"danger_level\": " ++ toString n ++ "\x7d"

/-- `send_to_emulator(has_detections)`: returns immediately when the
emulator is disabled; otherwise computes
`detection_level = 50 if has_detections else 0`, serialises it with
`json.dumps`, and sends exactly one UDP datagram carrying the UTF-8
encoding of that text (the payload is ASCII, so it is tracked here as the
string itself).  The returned list holds the datagrams sent by the call. -/
def send_to_emulator (emulator_enabled : Bool) (has_detections : Bool) :
    List String :=
  if emulator_enabled = false then []
  else
    let detection_level : Int := if has_detections then 50 else 0
    [jsonDumpsDangerLevel detection_level]

/-! ## Frame-queue operations (for the backpressure claim) -/

inductive PipeOp
  | submit (f : Frame)
  | take
deriving DecidableEq

/-- One operation on the rgb frame queue: `submit` is `add_rgb_frame`;
`take` is the worker's `rgb_queue.get(timeout=0.1)`, which removes the
oldest frame when one is present and otherwise times out (`Empty`), leaving
the queue unchanged. -/
def applyPipeOp (q : BQueue Frame) : PipeOp → BQueue Frame
  | .submit f => add_rgb_frame q f
  | .take =>
    match q.get_nowait with
    | some (_, q') => q'
    | none => q

/-! ## The main loop body (`main`) -/

structure MainState where
  current_detections : List Detection
  sound : SoundState
deriving DecidableEq

/-- One iteration of `main`'s `while True` loop, after frame intake:
`latest_detections = processor.get_latest_detection()` (its extracted value
is the input `latest`); `current_detections` is overwritten only when
`latest` is not `None`; `has_detections = len(current_detections) > 0`;
`send_to_emulator(has_detections)` runs when the emulator is enabled and
`play_alert_sound(has_detections)` when sound is enabled.  Returns the new
state, the datagrams sent, and the pygame calls issued this cycle. -/
def mainCycle (emulator_enabled sound_enabled : Bool) (s : MainState)
    (latest : Option (List Detection)) :
    MainState × List String × List SoundCall :=
  let cd := match latest with
    | some d => d
    | none => s.current_detections
  let has := decide (0 < cd.length)
  let dgrams := if emulator_enabled then send_to_emulator emulator_enabled has
    else []
  let sc := if sound_enabled then play_alert_sound sound_enabled s.sound has
    else (s.sound, [])
  (⟨cd, sc.1⟩, dgrams, sc.2)

/-- Iterate `mainCycle` over a sequence of `get_latest_detection` values,
collecting all datagrams and pygame calls in order. -/
def mainCycles (emulator_enabled sound_enabled : Bool) (s : MainState) :
    List (Option (List Detection)) →
      MainState × List String × List SoundCall
  | [] => (s, [], [])
  | l :: ls =>
    let step := mainCycle emulator_enabled sound_enabled s l
    let rest := mainCycles emulator_enabled sound_enabled step.1 ls
    (rest.1, step.2.1 ++ rest.2.1, step.2.2 ++ rest.2.2)

end SARIT

namespace SARIT

/-! ## Theorems for the claims -/

theorem workerPublish_full (q : BQueue (List Detection)) (r : List Detection)
    (h : q.full = true) : workerPublish q r = q := by
  simp [workerPublish, h]

theorem foldl_workerPublish_full (rs : List (List Detection))
    (q : BQueue (List Detection)) (h : q.full = true) :
    rs.foldl workerPublish q = q := by
  induction rs with
  | nil => rfl
  | cons r rs ih => rw [List.foldl_cons, workerPublish_full q r h, ih]

def sampleDetection : Detection := ⟨(0, 0, 10, 10), "person", 90⟩

/-- C1, counterexample: two results complete before the consumer reads once —
first `[]`, then `[sampleDetection]`.  A single `get_latest_detection` call
returns the OLDEST result `[]`, not the most recently completed one, refuting
latest-wins as claimed. -/
theorem C1_counterexample :
    (get_latest_detection (workerPublish (workerPublish resultQueue0 [])
        [sampleDetection])).1 = some [] ∧
    ¬ ((get_latest_detection (workerPublish (workerPublish resultQueue0 [])
        [sampleDetection])).1 = some [sampleDetection]) := by
  exact ⟨rfl, by decide⟩

/-- C1, amended: the result channel is FIFO with drop-NEWEST overflow.  For
any sequence of results completed by the worker into an initially empty
result queue, the queue retains the two oldest results (later completions
are discarded under capacity pressure), and a single `get_latest_detection`
call yields the OLDEST unread result — which coincides with the most recent
one only when at most one result is unread. -/
theorem C1_fifo_drop_newest (rs : List (List Detection)) :
    (rs.foldl workerPublish resultQueue0).items = rs.take 2 ∧
    (get_latest_detection (rs.foldl workerPublish resultQueue0)).1 = rs.head? := by
  match rs with
  | [] => exact ⟨rfl, rfl⟩
  | [r1] => exact ⟨rfl, rfl⟩
  | r1 :: r2 :: rest =>
    have e : (r1 :: r2 :: rest).foldl workerPublish resultQueue0
        = rest.foldl workerPublish ⟨[r1, r2], 2⟩ := rfl
    rw [e, foldl_workerPublish_full rest ⟨[r1, r2], 2⟩ rfl]
    exact ⟨rfl, rfl⟩

/-- Witness for C1's amended theorem at a concrete two-result sequence. -/
theorem C1_fifo_drop_newest_witness :
    (([([] : List Detection), [sampleDetection]].foldl workerPublish
        resultQueue0).items
      = [([] : List Detection), [sampleDetection]].take 2) ∧
    ((get_latest_detection ([([] : List Detection),
        [sampleDetection]].foldl workerPublish resultQueue0)).1
      = [([] : List Detection), [sampleDetection]].head?) :=
  C1_fifo_drop_newest [[], [sampleDetection]]

/-- C2, counterexample: for the danger sequence
`[ABSENT, PRESENT, PRESENT, PRESENT, ABSENT]` starting inactive, the pygame
mixer receives TWO `stop()` calls (one issued just before starting playback,
one on the PRESENT→ABSENT edge), not exactly one as claimed. -/
theorem C2_counterexample :
    ¬ ((alertTrace true ⟨none⟩ [false, true, true, true, false]).2.count
        SoundCall.mixerStop = 1) := by
  decide

/-- C2, amended: on `[ABSENT, PRESENT, PRESENT, PRESENT, ABSENT]` from the
inactive state the actuator receives exactly one `play` (start) call and
exactly two `mixer.stop` calls — one bundled into the start action and one on
the cycle danger becomes ABSENT; the full call trace is
`[stop, play, stop]`.  Moreover playback is never re-triggered on a cycle
where danger is PRESENT and the actuator is already active, and on any cycle
with danger ABSENT the actuator state is inactive at the end of that same
cycle. -/
theorem C2_edge_trigger_amended :
    ((alertTrace true ⟨none⟩ [false, true, true, true, false]).2
      = [.mixerStop, .chillerPlay, .mixerStop]) ∧
    ((alertTrace true ⟨none⟩ [false, true, true, true, false]).2.count
      SoundCall.chillerPlay = 1) ∧
    ((alertTrace true ⟨none⟩ [false, true, true, true, false]).2.count
      SoundCall.mixerStop = 2) ∧
    (∀ s : SoundState, s.current_playing_sound = some "chiller" →
      play_alert_sound true s true = (s, [])) ∧
    (∀ s : SoundState,
      (play_alert_sound true s false).1.current_playing_sound = none) := by
  refine ⟨by decide, by decide, by decide, ?_, ?_⟩
  · intro s hs
    simp [play_alert_sound, hs]
  · intro s
    rcases s with ⟨_ | v⟩ <;> simp [play_alert_sound]

/-- Witness for C2's amended theorem: instantiated at the active state with
danger PRESENT. -/
theorem C2_edge_trigger_amended_witness :
    play_alert_sound true ⟨some "chiller"⟩ true = (⟨some "chiller"⟩, []) :=
  C2_edge_trigger_amended.2.2.2.1 ⟨some "chiller"⟩ rfl

/-- C3: `should_restart()` is true iff the supervisor is running and
(`restart_count = 0`, or `max_restarts` is unset, or
`restart_count < max_restarts`); in particular with `restart_count = 0` and
the supervisor running it is true for every `max_restarts`, including
`some 0`. -/
theorem C3_should_restart_iff :
    (∀ s : SupState, should_restart s = true ↔
      (s.running = true ∧ (s.restart_count = 0 ∨ s.max_restarts = none ∨
        ∃ m, s.max_restarts = some m ∧ s.restart_count < m))) ∧
    (∀ (pu : Bool) (mr : Option Nat),
      should_restart ⟨true, pu, 0, mr⟩ = true) := by
  constructor
  · rintro ⟨run, pu, rc, mr⟩
    cases run <;> cases mr <;> simp [should_restart]
  · intro pu mr
    simp [should_restart]

/-- Witness for C3: first start is permitted even with `max_restarts = 0`. -/
theorem C3_should_restart_iff_witness :
    should_restart ⟨true, true, 0, some 0⟩ = true :=
  C3_should_restart_iff.2 true (some 0)

theorem runBody_spawn_fail (s : SupState) (ex : Bool)
    (hp : s.processUp = false) (hr : should_restart s = true) :
    runBody s false ex = (s, false, false) := by
  simp [runBody, hp, hr]

/-- C4: with `max_restarts = 2` and every spawn succeeding but the child
exiting immediately each time, the main loop performs exactly 2 starts, ends
in a state where `should_restart()` is false, and exits, for every
environment of at least 3 modelled iterations. -/
theorem C4_restart_cap (env : List (Bool × Bool))
    (h : ∀ p ∈ env, p = (true, true)) (hlen : 3 ≤ env.length) :
    runLoop ⟨true, false, 0, some 2⟩ env
      = (⟨true, false, 2, some 2⟩, 2, true) ∧
    should_restart ⟨true, false, 2, some 2⟩ = false := by
  match env, hlen with
  | p1 :: p2 :: p3 :: rest, _ =>
    have h1 := h p1 (by simp)
    have h2 := h p2 (by simp)
    have h3 := h p3 (by simp)
    subst h1; subst h2; subst h3
    exact ⟨rfl, rfl⟩

/-- Witness for C4 at the 3-iteration environment. -/
theorem C4_restart_cap_witness :
    runLoop ⟨true, false, 0, some 2⟩
        [(true, true), (true, true), (true, true)]
      = (⟨true, false, 2, some 2⟩, 2, true) ∧
    should_restart ⟨true, false, 2, some 2⟩ = false :=
  C4_restart_cap [(true, true), (true, true), (true, true)]
    (by decide) (by decide)

/-- C8: `stop_process()` is a no-op when no child is held; with a child it
always releases the handle and ends with a completed `wait` confirming the
child dead — via `terminate` + grace-period `wait` when the child stops
cooperatively, and via `terminate`, grace-period timeout, `kill`, final
`wait` when it does not; and it is idempotent. -/
theorem C8_graceful_then_forced_stop :
    (stop_process none = (none, [])) ∧
    (∀ c : ProcHandle, (stop_process (some c)).1 = none ∧
      confirmsChildDead (stop_process (some c)).2 = true ∧
      (c.stopsGracefully = false →
        (stop_process (some c)).2
          = [.terminate, .waitGraceTimeout, .kill, .waitFinal]) ∧
      (c.stopsGracefully = true →
        (stop_process (some c)).2 = [.terminate, .waitGraceReturned])) ∧
    (∀ p : Option ProcHandle,
      stop_process (stop_process p).1 = ((stop_process p).1, [])) := by
  refine ⟨rfl, ?_, ?_⟩
  · rintro ⟨g⟩
    cases g <;> exact ⟨rfl, rfl, fun h => by simp_all [stop_process],
      fun h => by simp_all [stop_process]⟩
  · rintro (_ | ⟨_ | _⟩) <;> rfl

/-- Witness for C8 at a child that ignores cooperative termination. -/
theorem C8_graceful_then_forced_stop_witness :
    (stop_process (some ⟨false⟩)).2
      = [.terminate, .waitGraceTimeout, .kill, .waitFinal] :=
  (C8_graceful_then_forced_stop.2.1 ⟨false⟩).2.2.1 rfl

/-- C9: `restart_count` is incremented exactly when `start_process`
succeeds; a failed spawn attempt leaves the whole state unchanged and
neither breaks the loop nor counts a start; and the loop keeps retrying
through any number of consecutive spawn failures without exiting and
without changing `restart_count`. -/
theorem C9_failed_spawn_not_counted :
    (∀ (s : SupState) (ok ex : Bool),
      (runBody s ok ex).1.restart_count
        = if (runBody s ok ex).2.2 then s.restart_count + 1
          else s.restart_count) ∧
    (∀ (s : SupState) (ex : Bool), s.processUp = false →
      should_restart s = true →
      runBody s false ex = (s, false, false)) ∧
    (∀ (s : SupState) (n : Nat) (ex : Bool), s.running = true →
      s.processUp = false → should_restart s = true →
      runLoop s (List.replicate n (false, ex)) = (s, 0, false)) := by
  refine ⟨?_, fun s ex hp hr => runBody_spawn_fail s ex hp hr, ?_⟩
  · rintro ⟨run, pu, rc, mr⟩ ok ex
    cases pu <;> cases ok <;> cases ex <;>
      simp [runBody] <;> split <;> simp
  · intro s n ex hrun hp hr
    induction n with
    | zero => rfl
    | succ n ih =>
      rw [List.replicate_succ]
      simp only [runLoop, hrun, runBody_spawn_fail s ex hp hr, ih]
      simp [hrun]

/-- Witness for C9: two consecutive failed spawns from a mid-life state
leave `restart_count` at 1, with the loop still running. -/
theorem C9_failed_spawn_not_counted_witness :
    runLoop ⟨true, false, 1, none⟩ (List.replicate 2 (false, true))
      = (⟨true, false, 1, none⟩, 0, false) :=
  C9_failed_spawn_not_counted.2.2 ⟨true, false, 1, none⟩ 2 true rfl rfl
    (by decide)

/-- C5: with the emulator enabled, a call with danger PRESENT sends exactly
one datagram whose payload is the JSON text for danger_level 50, a call with
danger ABSENT sends exactly one datagram for danger_level 0, and every
datagram any call ever sends carries one of those two payloads. -/
theorem C5_telemetry_format (e : Bool) (he : e = true) :
    send_to_emulator e true = [jsonDumpsDangerLevel 50] ∧
    jsonDumpsDangerLevel 50 = "\x7b\"danger_level\": 50\x7d" ∧
    send_to_emulator e false = [jsonDumpsDangerLevel 0] ∧
    jsonDumpsDangerLevel 0 = "\x7b\"danger_level\": 0\x7d" ∧
    (∀ (b : Bool) (d : String), d ∈ send_to_emulator e b →
      d = jsonDumpsDangerLevel 50 ∨ d = jsonDumpsDangerLevel 0) := by
  subst he
  refine ⟨rfl, rfl, rfl, rfl, ?_⟩
  intro b d hd
  cases b
  · right
    simpa [send_to_emulator] using hd
  · left
    simpa [send_to_emulator] using hd

/-- Witness for C5 with the emulator enabled. -/
theorem C5_telemetry_format_witness :
    send_to_emulator true true = [jsonDumpsDangerLevel 50] :=
  (C5_telemetry_format true rfl).1

/-- C6: the worker loop computes a detection set for every queued frame in
order — `jetson_object_detection` is total, so no classifier exception
reaches the loop and the worker never terminates early, and every later
frame is still processed — and a frame on which the classifier raises
yields the empty detection set. -/
theorem C6_classifier_failure_isolation (net : Net)
    (inputs : List (Option Frame)) (rq : BQueue (List Detection))
    (f : Frame) (e : String) (hf : net.detect f = .error e) :
    (detectionWorkerSteps net rq inputs).2
      = (inputs.filterMap id).map (jetson_object_detection net) ∧
    jetson_object_detection net f = [] := by
  constructor
  · induction inputs generalizing rq with
    | nil => rfl
    | cons o rest ih =>
      cases o with
      | none => simpa [detectionWorkerSteps] using ih rq
      | some fr => simp [detectionWorkerSteps, ih]
  · simp [jetson_object_detection, hf]

def failingNet : Net :=
  ⟨fun _ => .error "detection error", fun _ => "person"⟩

/-- Witness for C6: a classifier that raises on every frame — both queued
frames are still processed and both yield the empty detection set. -/
theorem C6_classifier_failure_isolation_witness :
    (detectionWorkerSteps failingNet resultQueue0 [some 0, none, some 1]).2
      = ([some 0, none, some 1].filterMap id).map
          (jetson_object_detection failingNet) ∧
    jetson_object_detection failingNet 0 = [] :=
  C6_classifier_failure_isolation failingNet [some 0, none, some 1]
    resultQueue0 0 "detection error" rfl

theorem applyPipeOp_bounded (q : BQueue Frame) (op : PipeOp)
    (h : q.items.length ≤ q.cap) :
    (applyPipeOp q op).items.length ≤ q.cap ∧
    (applyPipeOp q op).cap = q.cap := by
  cases op with
  | submit f =>
    by_cases hlt : q.items.length < q.cap
    · refine ⟨?_, ?_⟩ <;>
        simp [applyPipeOp, add_rgb_frame, BQueue.put_nowait, hlt]
      omega
    · refine ⟨?_, ?_⟩ <;>
        simp [applyPipeOp, add_rgb_frame, BQueue.put_nowait, hlt]
      exact h
  | take =>
    match hq : q.items with
    | [] =>
      refine ⟨?_, ?_⟩ <;> simp [applyPipeOp, BQueue.get_nowait, hq]
    | x :: rest =>
      refine ⟨?_, ?_⟩ <;> simp [applyPipeOp, BQueue.get_nowait, hq]
      simp [hq] at h
      omega

theorem foldl_applyPipeOp_bounded (ops : List PipeOp) (q : BQueue Frame)
    (h : q.items.length ≤ q.cap) :
    (ops.foldl applyPipeOp q).items.length ≤ (ops.foldl applyPipeOp q).cap ∧
    (ops.foldl applyPipeOp q).cap = q.cap := by
  induction ops generalizing q with
  | nil => exact ⟨h, rfl⟩
  | cons op rest ih =>
    obtain ⟨h1, h2⟩ := applyPipeOp_bounded q op h
    obtain ⟨g1, g2⟩ := ih (applyPipeOp q op) (by rw [h2]; exact h1)
    exact ⟨g1, by rw [List.foldl_cons, g2, h2]⟩

/-- C7: `add_rgb_frame` is total (the `queue.Full` exception is swallowed,
so it never raises or blocks); on a full queue the incoming frame is
discarded and the queue is unchanged; and starting from any capacity-2
queue holding at most 2 frames, no sequence of submits and worker takes
ever brings the occupancy above 2. -/
theorem C7_backpressure (q : BQueue Frame) (f : Frame) (ops : List PipeOp)
    (hcap : q.cap = 2) (hlen : q.items.length ≤ 2) :
    (q.full = true → add_rgb_frame q f = q) ∧
    (ops.foldl applyPipeOp q).items.length ≤ 2 ∧
    (ops.foldl applyPipeOp q).cap = 2 := by
  obtain ⟨g1, g2⟩ := foldl_applyPipeOp_bounded ops q (by rw [hcap]; exact hlen)
  refine ⟨?_, by rw [← hcap, ← g2]; exact g1, by rw [g2, hcap]⟩
  intro hfull
  have hge : q.cap ≤ q.items.length := by
    simpa [BQueue.full] using hfull
  have hnl : ¬ q.items.length < q.cap := by omega
  simp [add_rgb_frame, BQueue.put_nowait, hnl]

/-- Witness for C7: three submits and one take against the initially empty
capacity-2 rgb queue. -/
theorem C7_backpressure_witness :
    (rgbQueue0.full = true → add_rgb_frame rgbQueue0 0 = rgbQueue0) ∧
    (([PipeOp.submit 0, .submit 1, .submit 2, .take].foldl applyPipeOp
        rgbQueue0).items.length ≤ 2) ∧
    (([PipeOp.submit 0, .submit 1, .submit 2, .take].foldl applyPipeOp
        rgbQueue0).cap = 2) :=
  C7_backpressure rgbQueue0 0 [.submit 0, .submit 1, .submit 2, .take]
    rfl (by decide)

/-- C10: on a cycle where `get_latest_detection` returns `None`,
`current_detections` is latched unchanged and the telemetry sent is exactly
what the latched value determines; if additionally the actuator state
matches the latched danger state, the whole state and the actuator are
untouched; and from a PRESENT state with the alarm active, any number of
consecutive `None` cycles leaves the state fixed, issues no pygame calls,
and sends the danger_level-50 datagram on every cycle. -/
theorem C10_latched_state (e se : Bool) (s : MainState) :
    ((mainCycle e se s none).1.current_detections = s.current_detections) ∧
    ((mainCycle e se s none).2.1
      = if e then
          send_to_emulator e (decide (0 < s.current_detections.length))
        else []) ∧
    (se = true → s.sound.current_playing_sound = some "chiller" →
      s.current_detections ≠ [] →
      (mainCycle e se s none).1 = s ∧ (mainCycle e se s none).2.2 = []) ∧
    (∀ n : Nat, e = true → se = true →
      s.sound.current_playing_sound = some "chiller" →
      s.current_detections ≠ [] →
      mainCycles e se s (List.replicate n none)
        = (s, List.replicate n (jsonDumpsDangerLevel 50), [])) := by
  have hstep : ∀ t : MainState, t.sound.current_playing_sound = some "chiller" →
      t.current_detections ≠ [] →
      mainCycle true true t none
        = (t, [jsonDumpsDangerLevel 50], []) := by
    rintro ⟨cd, ⟨cur⟩⟩ hcur hne
    have hpos : 0 < cd.length := List.length_pos.mpr hne
    simp only at hcur
    simp [mainCycle, hpos, play_alert_sound, hcur, send_to_emulator]
  refine ⟨rfl, rfl, ?_, ?_⟩
  · intro hse hcur hne
    subst hse
    have hpos : 0 < s.current_detections.length := List.length_pos.mpr hne
    rcases s with ⟨cd, ⟨cur⟩⟩
    simp only at hcur
    simp only [List.length_pos] at hpos
    constructor <;>
      simp [mainCycle, List.length_pos.mpr hpos, play_alert_sound, hcur]
  · intro n he hse hcur hne
    subst he; subst hse
    induction n with
    | zero => rfl
    | succ n ih =>
      rw [List.replicate_succ]
      simp only [mainCycles, hstep s hcur hne, ih, List.replicate_succ]
      rfl

def carDetection : Detection := ⟨(1, 2, 3, 4), "car", 80⟩

/-- Witness for C10: with detections latched and the alarm active, two
workerless cycles send danger_level 50 twice and change nothing. -/
theorem C10_latched_state_witness :
    mainCycles true true ⟨[carDetection], ⟨some "chiller"⟩⟩
        (List.replicate 2 none)
      = (⟨[carDetection], ⟨some "chiller"⟩⟩,
         List.replicate 2 (jsonDumpsDangerLevel 50), []) :=
  (C10_latched_state true true ⟨[carDetection], ⟨some "chiller"⟩⟩).2.2.2
    2 rfl rfl rfl (by decide)

end SARIT
